import Mathlib

/-
  Formal model of the tool-invocation core of the MCP demo server
  (src/python-server/mcp_server.py).

  The effectful surroundings of the `call_tool` handler (the system clock,
  the IANA timezone database and the network) are modelled as an explicit
  `World` value; `call_tool` itself is embedded as a pure total function
  from a world, a tool name and a decoded argument mapping to the list of
  text content items it returns.
-/

namespace MCPServer

/-- Model of `mcp.types.TextContent` restricted to the two fields the
server constructs: the kind tag (always the literal string text) and the
payload string. -/
structure TextContent where
  type : String
  text : String
deriving DecidableEq

/-- Decoded JSON argument mapping, typed by the input schemas the server
declares in `list_tools`: `message` (string) for echotest, `timezone`
(string) for timeserver, `url` (string) and `max_bytes` (integer) for
fetch.  A missing field is `none`; `Option.getD` models
`arguments.get(key, default)`. -/
structure Arguments where
  message : Option String := none
  timezone : Option String := none
  url : Option String := none
  max_bytes : Option Int := none

/-- Observation of a Python `datetime` value as used by the server code:
the string returned by `isoformat()` and the integer
`int(value.timestamp())`. -/
structure DateTime where
  iso : String
  timestampInt : Int

/-- A Python exception escaping `call_tool` uncaught, observed at the
caller: the exception type name and its message. -/
structure PyException where
  kind : String
  message : String
deriving DecidableEq

/-- Outcome of evaluating `ZoneInfo(tz)` in CPython on a key string `tz`:
either the key is recognized and a zone is produced (`found`); or the key
is well formed but absent from the zone database, raising
`ZoneInfoNotFoundError` (`notFound`); or the key is rejected by path
validation — an absolute path, a non-normalized path such as `UTC/` or
`Europe//Kyiv`, or one escaping the search path such as `../x` — raising
`ValueError` with the given message before any database lookup
(`invalidKey`).  The source catches only `ZoneInfoNotFoundError`, so the
third outcome propagates out of `call_tool`. -/
inductive ZoneLookup where
  | found
  | notFound
  | invalidKey (message : String)
deriving DecidableEq

/-- Outcome of `urllib.request.urlopen` for a URL, mirroring the except
clauses of the fetch branch: a successful response (numeric status, reason
phrase, optional raw Content-Length header string, full body bytes), an
`urllib.error.HTTPError` (code, reason), an `urllib.error.URLError`
(reason), or any other exception (message). -/
inductive FetchOutcome where
  | success (status : Nat) (reason : String) (contentLength : Option String)
      (body : List Nat)
  | httpError (code : Nat) (reason : String)
  | urlError (reason : String)
  | otherError (message : String)

/-- The ambient effects visible to `call_tool`: the three-way outcome of
`ZoneInfo(tz)` per key (found, `ZoneInfoNotFoundError`, or `ValueError`
for a path-invalid key, see `ZoneLookup`), the zoned clock
`datetime.now(ZoneInfo(tz))`, the naive local clock `datetime.now()`, the
UTC clock, and the network response per URL. -/
structure World where
  zoneInfo : String → ZoneLookup
  nowWithZone : String → DateTime
  nowNaive : DateTime
  nowUtc : DateTime
  fetchResponse : String → FetchOutcome

/-- Constant `DEFAULT_MAX_BYTES = 4096` from mcp_server.py. -/
def DEFAULT_MAX_BYTES : Int := 4096

/-- Constant `MIN_BYTES = 256` from mcp_server.py. -/
def MIN_BYTES : Int := 256

/-- Constant `MAX_BYTES = 65536` from mcp_server.py. -/
def MAX_BYTES : Int := 65536

/-- The `clamp` function of mcp_server.py (lines 31-35): a value at most 0
yields `DEFAULT_MAX_BYTES`, otherwise `max(min_val, min(value, max_val))`. -/
def clamp (value min_val max_val : Int) : Int :=
  if value ≤ 0 then DEFAULT_MAX_BYTES
  else max min_val (min value max_val)

/-- Line 128 of mcp_server.py:
`max_bytes = clamp(arguments.get("max_bytes", 0), MIN_BYTES, MAX_BYTES)`. -/
def resolved_max_bytes (arguments : Arguments) : Int :=
  clamp (arguments.max_bytes.getD 0) MIN_BYTES MAX_BYTES

/-- Models Python `str.startswith` on the character sequences of the two
strings. -/
def pyStartswith (s pre : String) : Bool :=
  pre.data.isPrefixOf s.data

/-- Decimal value of a digit character list. -/
def digitsToNat (ds : List Char) : Nat :=
  ds.foldl (fun acc c => 10 * acc + (c.toNat - 48)) 0

/-- Sign-and-digits part of Python `int(s)`: an optional single sign then
one or more ASCII digits. -/
def pyIntCore : List Char → Option Int
  | '-' :: ds =>
    if ds ≠ [] ∧ ds.all Char.isDigit then some (-(digitsToNat ds : Int)) else none
  | '+' :: ds =>
    if ds ≠ [] ∧ ds.all Char.isDigit then some (digitsToNat ds) else none
  | ds =>
    if ds ≠ [] ∧ ds.all Char.isDigit then some (digitsToNat ds) else none

/-- Models Python `int(s)` applied to a decimal string: optional
surrounding whitespace, an optional single sign, then one or more ASCII
digits; `none` models the `ValueError` Python raises otherwise.
(Underscore digit grouping is not modelled.) -/
def pyInt (s : String) : Option Int :=
  pyIntCore
    ((s.data.dropWhile Char.isWhitespace).reverse.dropWhile Char.isWhitespace).reverse

/-- Message of the `ValueError` raised by Python `int(s)` on a
non-numeric string, as formatted by `str(e)` for a simple string literal. -/
def pyIntErrorMsg (s : String) : String :=
  "invalid literal for int() with base 10: \x27" ++ s ++ "\x27"

/-- The Unicode replacement character U+FFFD. -/
def replacementChar : Char := Char.ofNat 0xFFFD

/-- Whether a byte is a UTF-8 continuation byte (10xxxxxx). -/
def isCont (b : Nat) : Prop := 0x80 ≤ b ∧ b ≤ 0xBF

instance (b : Nat) : Decidable (isCont b) := by unfold isCont; infer_instance

/-- Models `bytes.decode(\x27utf-8\x27, errors=\x27replace\x27)`: decodes
well-formed UTF-8 sequences and substitutes U+FFFD for ill-formed input
(resynchronising after the offending lead byte, an approximation of the
CPython maximal-subpart replacement).  No claim depends on the exact
replacement positions. -/
def utf8DecodeReplace : List Nat → List Char
  | [] => []
  | b :: rest =>
    if b ≤ 0x7F then Char.ofNat b :: utf8DecodeReplace rest
    else if 0xC2 ≤ b ∧ b ≤ 0xDF then
      match h2 : rest with
      | c1 :: rest2 =>
        if isCont c1 then
          Char.ofNat ((b - 0xC0) * 0x40 + (c1 - 0x80)) :: utf8DecodeReplace rest2
        else replacementChar :: utf8DecodeReplace rest
      | [] => [replacementChar]
    else if 0xE0 ≤ b ∧ b ≤ 0xEF then
      match h3 : rest with
      | c1 :: c2 :: rest3 =>
        if isCont c1 ∧ isCont c2 ∧ (b = 0xE0 → 0xA0 ≤ c1) ∧ (b = 0xED → c1 ≤ 0x9F) then
          Char.ofNat ((b - 0xE0) * 0x1000 + (c1 - 0x80) * 0x40 + (c2 - 0x80))
            :: utf8DecodeReplace rest3
        else replacementChar :: utf8DecodeReplace rest
      | _ => replacementChar :: utf8DecodeReplace rest
    else if 0xF0 ≤ b ∧ b ≤ 0xF4 then
      match h4 : rest with
      | c1 :: c2 :: c3 :: rest4 =>
        if isCont c1 ∧ isCont c2 ∧ isCont c3 ∧
            (b = 0xF0 → 0x90 ≤ c1) ∧ (b = 0xF4 → c1 ≤ 0x8F) then
          Char.ofNat ((b - 0xF0) * 0x40000 + (c1 - 0x80) * 0x1000 +
              (c2 - 0x80) * 0x40 + (c3 - 0x80))
            :: utf8DecodeReplace rest4
        else replacementChar :: utf8DecodeReplace rest
      | _ => replacementChar :: utf8DecodeReplace rest
    else replacementChar :: utf8DecodeReplace rest
termination_by l => l.length
decreasing_by all_goals (simp_all only [List.length_cons]; omega)

/-- Packs the decoded characters of a body into a string, modelling
`body.decode` with replacement as used on line 156. -/
def pyDecode (body : List Nat) : String :=
  ⟨utf8DecodeReplace body⟩

/-- The success result string of the fetch branch (lines 152-157):
URL line, Status line, Bytes line with the optional truncation note, a
blank line, then the decoded body. -/
def fetchResultText (url status : String) (body : List Nat)
    (truncated_note : String) : String :=
  "URL: " ++ url ++ "\n" ++
  "Status: " ++ status ++ "\n" ++
  "Bytes: " ++ toString body.length ++ truncated_note ++ "\n\n" ++
  pyDecode body

/-- First line of the timeserver result:
`now_local=<isoformat> (tz=<label>)`. -/
def timeLine1 (now_local : DateTime) (loc_str : String) : String :=
  "now_local=" ++ now_local.iso ++ " (tz=" ++ loc_str ++ ")"

/-- Second line of the timeserver result: `now_utc=<isoformat>`. -/
def timeLine2 (now_utc : DateTime) : String :=
  "now_utc=" ++ now_utc.iso

/-- Third line of the timeserver result:
`unix=<int(now_local.timestamp())>`. -/
def timeLine3 (now_local : DateTime) : String :=
  "unix=" ++ toString now_local.timestampInt

/-- The three-line timeserver result string (lines 117-121). -/
def timeResultText (now_local : DateTime) (loc_str : String)
    (now_utc : DateTime) : String :=
  timeLine1 now_local loc_str ++ "\n" ++ timeLine2 now_utc ++ "\n" ++
    timeLine3 now_local

/-- The echotest branch (lines 94-97):
`message = arguments.get("message", "")`, returned verbatim. -/
def echoTool (arguments : Arguments) : List TextContent :=
  [⟨"text", arguments.message.getD ""⟩]

/-- The timeserver branch (lines 99-124): a present, non-empty timezone is
passed to `ZoneInfo` inside a try block whose only except clause catches
`ZoneInfoNotFoundError` (line 107).  A found zone yields the time result;
a well-formed unrecognized name raises `ZoneInfoNotFoundError`, caught and
converted to the invalid-timezone error text; a path-invalid name raises
`ValueError`, which no clause catches, so it propagates out of
`call_tool` as a thrown exception.  An absent or empty timezone uses the
naive local clock with the label Local. -/
def timeserverTool (w : World) (arguments : Arguments) :
    Except PyException (List TextContent) :=
  let timezone := arguments.timezone.getD ""
  if timezone ≠ "" then
    match w.zoneInfo timezone with
    | .found =>
      .ok [⟨"text", timeResultText (w.nowWithZone timezone) timezone w.nowUtc⟩]
    | .notFound =>
      .ok [⟨"text", "Error: invalid timezone \x27" ++ timezone ++ "\x27"⟩]
    | .invalidKey msg => .error ⟨"ValueError", msg⟩
  else
    .ok [⟨"text", timeResultText w.nowNaive "Local" w.nowUtc⟩]

/-- The fetch branch (lines 126-173): resolve `max_bytes` through `clamp`,
validate the URL, then dispatch on the network outcome.  On success the
body is `response.read(max_bytes)` (at most `max_bytes` bytes), and the
truncation note is set when the Content-Length header string is present,
non-empty (Python truthiness) and its integer value exceeds `max_bytes`;
a present non-empty header that `int` cannot parse raises a `ValueError`
caught by the catch-all except clause as a Fetch error result. -/
def fetchTool (w : World) (arguments : Arguments) : List TextContent :=
  let url := arguments.url.getD ""
  let max_bytes := resolved_max_bytes arguments
  if url = "" then
    [⟨"text", "Error: URL is required"⟩]
  else if ¬(pyStartswith url "http://" ∨ pyStartswith url "https://") then
    [⟨"text", "Error: URL must start with http:// or https://"⟩]
  else
    match w.fetchResponse url with
    | .success status reason contentLength bodyFull =>
      let body := bodyFull.take max_bytes.toNat
      let statusStr := toString status ++ " " ++ reason
      match contentLength with
      | none => [⟨"text", fetchResultText url statusStr body ""⟩]
      | some s =>
        if s = "" then
          [⟨"text", fetchResultText url statusStr body ""⟩]
        else
          match pyInt s with
          | none => [⟨"text", "Fetch error: " ++ pyIntErrorMsg s⟩]
          | some k =>
            [⟨"text", fetchResultText url statusStr body
                (if max_bytes < k then " (truncated)" else "")⟩]
    | .httpError code reason =>
      [⟨"text", "HTTP Error " ++ toString code ++ ": " ++ reason⟩]
    | .urlError reason =>
      [⟨"text", "URL Error: " ++ reason⟩]
    | .otherError message =>
      [⟨"text", "Fetch error: " ++ message⟩]

/-- The `call_tool` dispatcher (lines 91-176): dispatch on the tool name,
with the unknown-tool text for any unregistered name.  The echo and fetch
branches cannot raise on schema-typed arguments (the fetch try block ends
in a catch-all except clause), so they are wrapped in `Except.ok`; the
timeserver branch alone can propagate an exception, the `ValueError` of a
path-invalid zone key. -/
def call_tool (w : World) (name : String) (arguments : Arguments) :
    Except PyException (List TextContent) :=
  if name = "echotest" then .ok (echoTool arguments)
  else if name = "timeserver" then timeserverTool w arguments
  else if name = "fetch" then .ok (fetchTool w arguments)
  else .ok [⟨"text", "Unknown tool: " ++ name⟩]

/-- Sample world used to instantiate theorems at concrete inputs: a small
zone database of well-formed keys, fixed clock readings, and a network
that answers every URL with a 200 response of 512 bytes declaring
Content-Length 512. -/
def wA : World where
  zoneInfo := fun tz =>
    if tz = "UTC" ∨ tz = "Europe/Kyiv" then .found else .notFound
  nowWithZone := fun _ => ⟨"2025-06-01T13:00:00+03:00", 1748772000⟩
  nowNaive := ⟨"2025-06-01T12:00:00", 1748779200⟩
  nowUtc := ⟨"2025-06-01T10:00:00+00:00", 1748772000⟩
  fetchResponse := fun _ => .success 200 "OK" (some "512") (List.replicate 512 97)

/-- Sample world whose network response carries a Content-Length header
string that is not a decimal integer. -/
def wB : World where
  zoneInfo := fun tz => if tz = "UTC" then .found else .notFound
  nowWithZone := fun _ => ⟨"2025-06-01T13:00:00+03:00", 1748772000⟩
  nowNaive := ⟨"2025-06-01T12:00:00", 1748779200⟩
  nowUtc := ⟨"2025-06-01T10:00:00+00:00", 1748772000⟩
  fetchResponse := fun _ => .success 200 "OK" (some "abc") [104, 105]

/-- Sample world recording the CPython behaviour on the path-invalid key
UTC/: ZoneInfo raises ValueError (the key fails path validation before
any database lookup), while well-formed unrecognized keys raise
ZoneInfoNotFoundError. -/
def wC : World where
  zoneInfo := fun tz =>
    if tz = "UTC" then .found
    else if tz = "UTC/" then
      .invalidKey "ZoneInfo keys must be normalized relative paths, got: UTC/"
    else .notFound
  nowWithZone := fun _ => ⟨"2025-06-01T13:00:00+03:00", 1748772000⟩
  nowNaive := ⟨"2025-06-01T12:00:00", 1748779200⟩
  nowUtc := ⟨"2025-06-01T10:00:00+00:00", 1748772000⟩
  fetchResponse := fun _ => .success 200 "OK" none []

/-- Success-path side condition on the Content-Length header under which
the fetch branch produces its normal output: the header is absent, empty
(falsy in Python), or parses as a decimal integer. -/
def headerOk (cl : Option String) : Prop :=
  cl = none ∨ cl = some "" ∨ ∃ s k, cl = some s ∧ pyInt s = some k

/-- Sample fetch argument mapping: a valid http URL and max_bytes 256. -/
def aF : Arguments := { url := some "http://example.com", max_bytes := some 256 }

/-- Sample fetch argument mapping: a valid http URL, no max_bytes. -/
def aG : Arguments := { url := some "http://example.com" }

/-
  Theorems.
-/

/-- Dispatch equation: the name echotest selects the echo branch. -/
theorem call_tool_echotest (w : World) (a : Arguments) :
    call_tool w "echotest" a = .ok (echoTool a) := rfl

/-- Dispatch equation: the name timeserver selects the timeserver branch. -/
theorem call_tool_timeserver (w : World) (a : Arguments) :
    call_tool w "timeserver" a = timeserverTool w a := rfl

/-- Dispatch equation: the name fetch selects the fetch branch. -/
theorem call_tool_fetch (w : World) (a : Arguments) :
    call_tool w "fetch" a = .ok (fetchTool w a) := rfl

/-- C2: the clamp law: a value at most 0 yields the default 4096 (not the
floor 256); a positive value below 256 yields the floor 256; a value in
[256, 65536] is returned unchanged; a value above 65536 yields the ceiling
65536.  Moreover the fetch branch resolves an absent max_bytes argument
through this same rule with default 0, hence to 4096. -/
theorem C2_clamp_law (v : Int) :
    (v ≤ 0 → clamp v MIN_BYTES MAX_BYTES = 4096) ∧
    (0 < v → v < 256 → clamp v MIN_BYTES MAX_BYTES = 256) ∧
    (256 ≤ v → v ≤ 65536 → clamp v MIN_BYTES MAX_BYTES = v) ∧
    (65536 < v → clamp v MIN_BYTES MAX_BYTES = 65536) ∧
    (∀ a : Arguments, a.max_bytes = none → resolved_max_bytes a = 4096) := by
  refine ⟨?_, ?_, ?_, ?_, ?_⟩
  · intro h
    unfold clamp DEFAULT_MAX_BYTES
    rw [if_pos h]
  · intro h1 h2
    unfold clamp MIN_BYTES MAX_BYTES DEFAULT_MAX_BYTES
    rw [if_neg (by omega)]
    omega
  · intro h1 h2
    unfold clamp MIN_BYTES MAX_BYTES DEFAULT_MAX_BYTES
    rw [if_neg (by omega)]
    omega
  · intro h
    unfold clamp MIN_BYTES MAX_BYTES DEFAULT_MAX_BYTES
    rw [if_neg (by omega)]
    omega
  · intro a h
    unfold resolved_max_bytes
    rw [h]
    decide

/-- Witness for C2: the clamp law applied at minus 7, 100, 1000, 70000 and
at an argument mapping without a max_bytes field. -/
theorem C2_clamp_law_witness :
    clamp (-7) MIN_BYTES MAX_BYTES = 4096 ∧
    clamp 100 MIN_BYTES MAX_BYTES = 256 ∧
    clamp 1000 MIN_BYTES MAX_BYTES = 1000 ∧
    clamp 70000 MIN_BYTES MAX_BYTES = 65536 ∧
    resolved_max_bytes {} = 4096 :=
  ⟨(C2_clamp_law (-7)).1 (by decide),
   (C2_clamp_law 100).2.1 (by decide) (by decide),
   (C2_clamp_law 1000).2.2.1 (by decide) (by decide),
   (C2_clamp_law 70000).2.2.2.1 (by decide),
   (C2_clamp_law 0).2.2.2.2 {} rfl⟩

/-- C5: an absent or empty url yields the single text
Error: URL is required, and a non-empty url without an http or https
scheme yields the single text Error: URL must start with http or https;
both hold for every world, so the result does not depend on the network
at all (no request is made), and both are returned as normal results. -/
theorem C5_fetch_url_validation (w : World) (a : Arguments) :
    (a.url.getD "" = "" →
      call_tool w "fetch" a = .ok [⟨"text", "Error: URL is required"⟩]) ∧
    (∀ u, a.url.getD "" = u → u ≠ "" →
      ¬(pyStartswith u "http://" ∨ pyStartswith u "https://") →
      call_tool w "fetch" a =
        .ok [⟨"text", "Error: URL must start with http:// or https://"⟩]) := by
  constructor
  · intro h
    rw [call_tool_fetch]
    unfold fetchTool
    rw [h, if_pos rfl]
  · intro u hu hne hsch
    rw [call_tool_fetch]
    unfold fetchTool
    rw [hu, if_neg hne, if_pos hsch]

/-- Witness for C5: the empty url and the url ftp://x, in the sample
world. -/
theorem C5_fetch_url_validation_witness :
    call_tool wA "fetch" { url := some "" } =
      .ok [⟨"text", "Error: URL is required"⟩] ∧
    call_tool wA "fetch" { url := some "ftp://x" } =
      .ok [⟨"text", "Error: URL must start with http:// or https://"⟩] :=
  ⟨(C5_fetch_url_validation wA { url := some "" }).1 rfl,
   (C5_fetch_url_validation wA { url := some "ftp://x" }).2 "ftp://x" rfl
     (by decide) (by decide)⟩

/-- C6 counterexample: the timezone UTC/ is a non-empty string that is
not a recognized IANA zone name, yet the result is not the claimed
invalid-timezone text returned as a normal result: CPython ZoneInfo
rejects the path-invalid key with a ValueError that only the out-of-scope
except clause at line 107 could have caught, so the exception escapes
call_tool as a thrown error. -/
theorem C6_counterexample :
    call_tool wC "timeserver" { timezone := some "UTC/" } =
      .error ⟨"ValueError",
        "ZoneInfo keys must be normalized relative paths, got: UTC/"⟩ ∧
    call_tool wC "timeserver" { timezone := some "UTC/" } ≠
      .ok [⟨"text", "Error: invalid timezone \x27UTC/\x27"⟩] :=
  ⟨rfl, fun h => Except.noConfusion h⟩

/-- C6 (amended): for every timeserver invocation whose timezone argument
is a non-empty string on which ZoneInfo raises ZoneInfoNotFoundError — a
well-formed key that is not in the zone database — the result is the
single text Error: invalid timezone quoting the supplied name, returned
as a normal result, with no timestamp lines.  (A path-invalid name makes
ZoneInfo raise ValueError instead, which escapes call_tool uncaught.) -/
theorem C6_invalid_timezone_amended (w : World) (a : Arguments) (tz : String)
    (h1 : a.timezone.getD "" = tz) (h2 : tz ≠ "")
    (h3 : w.zoneInfo tz = .notFound) :
    call_tool w "timeserver" a =
      .ok [⟨"text", "Error: invalid timezone \x27" ++ tz ++ "\x27"⟩] := by
  rw [call_tool_timeserver]
  unfold timeserverTool
  rw [h1, if_pos h2, h3]

/-- Witness for the amended C6: the well-formed unrecognized timezone
Not/AZone in the sample world. -/
theorem C6_invalid_timezone_amended_witness :
    call_tool wA "timeserver" { timezone := some "Not/AZone" } =
      .ok [⟨"text", "Error: invalid timezone \x27Not/AZone\x27"⟩] :=
  C6_invalid_timezone_amended wA { timezone := some "Not/AZone" } "Not/AZone"
    rfl (by decide) (by decide)

/-- C8: the echo tool returns the supplied message verbatim, for every
string. -/
theorem C8_echo_identity (w : World) (a : Arguments) (s : String)
    (h : a.message = some s) :
    call_tool w "echotest" a = .ok [⟨"text", s⟩] := by
  rw [call_tool_echotest]
  unfold echoTool
  rw [h]
  rfl

/-- Witness for C8: a message with interior whitespace. -/
theorem C8_echo_identity_witness :
    call_tool wA "echotest" { message := some " hello  there " } =
      .ok [⟨"text", " hello  there "⟩] :=
  C8_echo_identity wA { message := some " hello  there " } " hello  there " rfl

/-- C9 counterexample: with the message field absent the echo branch
returns the empty string (the default of arguments.get), not the raw
undecoded argument payload.  Here the decoded mapping models the payload
\x7b"timezone": "x"\x7d, and the returned text, the empty string, differs
from that payload. -/
theorem C9_counterexample :
    call_tool wA "echotest" { timezone := some "x" } = .ok [⟨"text", ""⟩] ∧
    ("" : String) ≠ "\x7b\"timezone\": \"x\"\x7d" :=
  ⟨rfl, by decide⟩

/-- C9 (amended): with the message field absent the echo tool does not
fail: it returns a result whose single text is the empty string, the
default value of arguments.get, regardless of the other arguments. -/
theorem C9_echo_missing_message (w : World) (a : Arguments)
    (h : a.message = none) :
    call_tool w "echotest" a = .ok [⟨"text", ""⟩] := by
  rw [call_tool_echotest]
  unfold echoTool
  rw [h]
  rfl

/-- Witness for the amended C9: an argument mapping with no message
field. -/
theorem C9_echo_missing_message_witness :
    call_tool wA "echotest" { timezone := some "Europe/Kyiv" } =
      .ok [⟨"text", ""⟩] :=
  C9_echo_missing_message wA { timezone := some "Europe/Kyiv" } rfl

/-- C1 counterexample: the dispatcher does let an exception escape: at
the tool name timeserver with the schema-typed argument mapping whose
timezone is UTC/, ZoneInfo raises a ValueError that no except clause of
call_tool catches, so the invocation does not return a ToolResult at all
but propagates the exception to the caller. -/
theorem C1_counterexample :
    call_tool wC "timeserver" { timezone := some "UTC/" } =
      .error ⟨"ValueError",
        "ZoneInfo keys must be normalized relative paths, got: UTC/"⟩ ∧
    ¬∃ ts : List TextContent,
      call_tool wC "timeserver" { timezone := some "UTC/" } = .ok ts := by
  refine ⟨rfl, ?_⟩
  rintro ⟨ts, h⟩
  rw [show call_tool wC "timeserver" { timezone := some "UTC/" } =
    Except.error ⟨"ValueError",
      "ZoneInfo keys must be normalized relative paths, got: UTC/"⟩ from rfl] at h
  exact Except.noConfusion h

/-- C1 (amended): for every world, every tool name string and every
argument mapping whose timezone does not make ZoneInfo raise a ValueError
(the path-invalid-key case, the one uncaught exception of call_tool),
the dispatcher returns a result of exactly one text content item: every
other member of the error taxonomy (unknown tool, unrecognized timezone,
invalid URL, HTTP error, URL error, catch-all fetch error) is converted
at the point of detection into textual result content rather than
propagated as a thrown fault. -/
theorem C1_dispatcher_total_amended (w : World) (name : String)
    (a : Arguments)
    (h : ∀ msg, w.zoneInfo (a.timezone.getD "") ≠ .invalidKey msg) :
    ∃ s : String, call_tool w name a = .ok [⟨"text", s⟩] := by
  unfold call_tool echoTool timeserverTool fetchTool
  dsimp only
  repeat' split
  all_goals first
  | exact ⟨_, rfl⟩
  | exact absurd (by assumption) (h _)

/-- Witness for the amended C1: the timeserver at an unrecognized but
well-formed timezone in the sample world, whose zone lookup never raises
ValueError. -/
theorem C1_dispatcher_total_amended_witness :
    ∃ s : String,
      call_tool wA "timeserver" { timezone := some "Not/AZone" } =
        .ok [⟨"text", s⟩] :=
  C1_dispatcher_total_amended wA "timeserver" { timezone := some "Not/AZone" }
    (fun _ h => ZoneLookup.noConfusion h)

/-- Appending two newline-free strings yields a newline-free string. -/
theorem no_newline_append (s t : String) (hs : '\n' ∉ s.data)
    (ht : '\n' ∉ t.data) : '\n' ∉ (s ++ t).data := by
  rw [String.data_append]
  intro h
  rcases List.mem_append.mp h with h | h
  · exact hs h
  · exact ht h

/-- The characters produced by Nat.digitChar on a decimal digit are never
a newline. -/
theorem digitChar_ne_newline (n : Nat) : Nat.digitChar (n % 10) ≠ '\n' := by
  have h : n % 10 < 10 := Nat.mod_lt _ (by omega)
  set m := n % 10 with hm
  interval_cases m <;> decide

/-- Nat.toDigitsCore introduces no newline character. -/
theorem toDigitsCore_no_newline (fuel : Nat) : ∀ (n : Nat) (ds : List Char),
    '\n' ∉ ds → '\n' ∉ Nat.toDigitsCore 10 fuel n ds := by
  induction fuel with
  | zero =>
    intro n ds h
    simpa [Nat.toDigitsCore] using h
  | succ f ih =>
    intro n ds h
    unfold Nat.toDigitsCore
    dsimp only
    split
    · intro hmem
      rcases List.mem_cons.mp hmem with h1 | h1
      · exact digitChar_ne_newline _ h1.symm
      · exact h h1
    · refine ih _ _ ?_
      intro hmem
      rcases List.mem_cons.mp hmem with h1 | h1
      · exact digitChar_ne_newline _ h1.symm
      · exact h h1

/-- The decimal representation of a natural number contains no newline. -/
theorem natRepr_no_newline (n : Nat) : '\n' ∉ (Nat.repr n).data :=
  toDigitsCore_no_newline (n + 1) n [] (by simp)

/-- The decimal representation of an integer contains no newline. -/
theorem intToString_no_newline (i : Int) : '\n' ∉ (toString i).data := by
  cases i with
  | ofNat n => exact natRepr_no_newline n
  | negSucc n =>
    intro hmem
    rw [show toString (Int.negSucc n) = "-" ++ Nat.repr (n + 1) from rfl,
      String.data_append] at hmem
    rcases List.mem_append.mp hmem with h | h
    · simp at h
    · exact natRepr_no_newline (n + 1) h

/-- C7: with the timezone argument absent or empty the timeserver result
is a single text of exactly three newline-free lines joined by newlines:
the now_local line built from the naive local clock reading and labelled
tz=Local, the now_utc line built from the UTC clock reading, and the
unix line whose integer is int(timestamp()) of the same local clock
reading that the first line displays.  The hypotheses state only that the
isoformat strings of the two clock readings contain no newline, which
holds of every ISO-8601 timestamp. -/
theorem C7_timeserver_local_three_lines (w : World) (a : Arguments)
    (htz : a.timezone.getD "" = "")
    (h1 : '\n' ∉ w.nowNaive.iso.data) (h2 : '\n' ∉ w.nowUtc.iso.data) :
    call_tool w "timeserver" a =
      .ok [⟨"text", timeLine1 w.nowNaive "Local" ++ "\n" ++
          timeLine2 w.nowUtc ++ "\n" ++ timeLine3 w.nowNaive⟩] ∧
    '\n' ∉ (timeLine1 w.nowNaive "Local").data ∧
    '\n' ∉ (timeLine2 w.nowUtc).data ∧
    '\n' ∉ (timeLine3 w.nowNaive).data := by
  refine ⟨?_, ?_, ?_, ?_⟩
  · rw [call_tool_timeserver]
    unfold timeserverTool
    rw [htz, if_neg (by simp)]
    rfl
  · exact no_newline_append _ _
      (no_newline_append _ _
        (no_newline_append _ _
          (no_newline_append _ _ (by decide) h1)
          (by decide))
        (by decide))
      (by decide)
  · exact no_newline_append _ _ (by decide) h2
  · exact no_newline_append _ _ (by decide) (intToString_no_newline _)

/-- The resolved byte bound is always at least MIN_BYTES: either the
default 4096 or a value clamped up to at least 256. -/
theorem resolved_max_bytes_ge (a : Arguments) : 256 ≤ resolved_max_bytes a := by
  unfold resolved_max_bytes clamp MIN_BYTES MAX_BYTES DEFAULT_MAX_BYTES
  split
  · norm_num
  · exact le_max_left _ _

/-- Reduction of the fetch branch on a successful response carrying no
Content-Length header. -/
theorem fetchTool_success_none (w : World) (a : Arguments) (u : String)
    (st : Nat) (rs : String) (bodyFull : List Nat)
    (hu : a.url.getD "" = u) (hne : u ≠ "")
    (hsch : pyStartswith u "http://" ∨ pyStartswith u "https://")
    (hresp : w.fetchResponse u = .success st rs none bodyFull) :
    fetchTool w a =
      [⟨"text", fetchResultText u (toString st ++ " " ++ rs)
          (bodyFull.take (resolved_max_bytes a).toNat) ""⟩] := by
  unfold fetchTool
  rw [hu, if_neg hne, if_neg (not_not_intro hsch), hresp]

/-- Reduction of the fetch branch on a successful response carrying an
empty (falsy) Content-Length header string. -/
theorem fetchTool_success_empty (w : World) (a : Arguments) (u : String)
    (st : Nat) (rs : String) (bodyFull : List Nat)
    (hu : a.url.getD "" = u) (hne : u ≠ "")
    (hsch : pyStartswith u "http://" ∨ pyStartswith u "https://")
    (hresp : w.fetchResponse u = .success st rs (some "") bodyFull) :
    fetchTool w a =
      [⟨"text", fetchResultText u (toString st ++ " " ++ rs)
          (bodyFull.take (resolved_max_bytes a).toNat) ""⟩] := by
  unfold fetchTool
  rw [hu, if_neg hne, if_neg (not_not_intro hsch), hresp]
  rfl

/-- Reduction of the fetch branch on a successful response whose
Content-Length header parses as a decimal integer. -/
theorem fetchTool_success_parsed (w : World) (a : Arguments) (u : String)
    (st : Nat) (rs : String) (s : String) (k : Int) (bodyFull : List Nat)
    (hu : a.url.getD "" = u) (hne : u ≠ "")
    (hsch : pyStartswith u "http://" ∨ pyStartswith u "https://")
    (hresp : w.fetchResponse u = .success st rs (some s) bodyFull)
    (hs : s ≠ "") (hk : pyInt s = some k) :
    fetchTool w a =
      [⟨"text", fetchResultText u (toString st ++ " " ++ rs)
          (bodyFull.take (resolved_max_bytes a).toNat)
          (if resolved_max_bytes a < k then " (truncated)" else "")⟩] := by
  unfold fetchTool
  rw [hu, if_neg hne, if_neg (not_not_intro hsch), hresp]
  dsimp only
  rw [if_neg hs, hk]

/-- Reduction of the fetch branch on a successful response whose
Content-Length header is a non-empty string that does not parse. -/
theorem fetchTool_success_badheader (w : World) (a : Arguments) (u : String)
    (st : Nat) (rs : String) (s : String) (bodyFull : List Nat)
    (hu : a.url.getD "" = u) (hne : u ≠ "")
    (hsch : pyStartswith u "http://" ∨ pyStartswith u "https://")
    (hresp : w.fetchResponse u = .success st rs (some s) bodyFull)
    (hs : s ≠ "") (hpy : pyInt s = none) :
    fetchTool w a = [⟨"text", "Fetch error: " ++ pyIntErrorMsg s⟩] := by
  unfold fetchTool
  rw [hu, if_neg hne, if_neg (not_not_intro hsch), hresp]
  dsimp only
  rw [if_neg hs, hpy]

/-- C3: on every successful fetch the body kept is
response.read(max_bytes), so the byte count interpolated after Bytes: in
the output string, the length of the body list, never exceeds the
resolved max_bytes, whatever the response size. -/
theorem C3_fetch_byte_cap (w : World) (a : Arguments) (u : String)
    (st : Nat) (rs : String) (cl : Option String) (bodyFull : List Nat)
    (hu : a.url.getD "" = u) (hne : u ≠ "")
    (hsch : pyStartswith u "http://" ∨ pyStartswith u "https://")
    (hresp : w.fetchResponse u = .success st rs cl bodyFull)
    (hcl : headerOk cl) :
    ∃ note : String,
      call_tool w "fetch" a =
        .ok [⟨"text", fetchResultText u (toString st ++ " " ++ rs)
            (bodyFull.take (resolved_max_bytes a).toNat) note⟩] ∧
      ((bodyFull.take (resolved_max_bytes a).toNat).length : Int) ≤
        resolved_max_bytes a := by
  have h1 : (bodyFull.take (resolved_max_bytes a).toNat).length ≤
      (resolved_max_bytes a).toNat := by
    rw [List.length_take]
    exact min_le_left _ _
  have h2 := resolved_max_bytes_ge a
  have hlen : ((bodyFull.take (resolved_max_bytes a).toNat).length : Int) ≤
      resolved_max_bytes a := by omega
  rw [call_tool_fetch]
  rcases hcl with h | h | ⟨s, k, hs, hk⟩
  · subst h
    exact ⟨"", congrArg Except.ok
      (fetchTool_success_none w a u st rs bodyFull hu hne hsch hresp), hlen⟩
  · subst h
    exact ⟨"", congrArg Except.ok
      (fetchTool_success_empty w a u st rs bodyFull hu hne hsch hresp), hlen⟩
  · subst hs
    have hsne : s ≠ "" := by
      intro he
      rw [he, show pyInt "" = none from rfl] at hk
      exact Option.noConfusion hk
    exact ⟨if resolved_max_bytes a < k then " (truncated)" else "",
      congrArg Except.ok (fetchTool_success_parsed w a u st rs s k bodyFull
        hu hne hsch hresp hsne hk),
      hlen⟩

/-- Witness for C3: the sample world (512-byte body, Content-Length 512)
with max_bytes 256. -/
theorem C3_fetch_byte_cap_witness :
    ∃ note : String,
      call_tool wA "fetch" aF =
        .ok [⟨"text", fetchResultText "http://example.com" (toString 200 ++ " " ++ "OK")
            ((List.replicate 512 97).take (resolved_max_bytes aF).toNat) note⟩] ∧
      (((List.replicate 512 97).take (resolved_max_bytes aF).toNat).length : Int) ≤
        resolved_max_bytes aF :=
  C3_fetch_byte_cap wA aF "http://example.com" 200 "OK" (some "512")
    (List.replicate 512 97) rfl (by decide) (by decide) rfl
    (Or.inr (Or.inr ⟨"512", 512, rfl, by decide⟩))

/-- C4: on every successful fetch the truncation note equals
\x20(truncated) exactly when the response carries a Content-Length header
that is a non-empty string whose integer value strictly exceeds the
resolved max_bytes; when the header is absent, empty or not greater, the
note is the empty string — independently of the actual body size, which
the note never consults. -/
theorem C4_fetch_truncation_flag (w : World) (a : Arguments) (u : String)
    (st : Nat) (rs : String) (cl : Option String) (bodyFull : List Nat)
    (hu : a.url.getD "" = u) (hne : u ≠ "")
    (hsch : pyStartswith u "http://" ∨ pyStartswith u "https://")
    (hresp : w.fetchResponse u = .success st rs cl bodyFull)
    (hcl : headerOk cl) :
    ∃ note : String,
      call_tool w "fetch" a =
        .ok [⟨"text", fetchResultText u (toString st ++ " " ++ rs)
            (bodyFull.take (resolved_max_bytes a).toNat) note⟩] ∧
      (note = " (truncated)" ∨ note = "") ∧
      (note = " (truncated)" ↔
        ∃ s k, cl = some s ∧ s ≠ "" ∧ pyInt s = some k ∧
          resolved_max_bytes a < k) := by
  rw [call_tool_fetch]
  rcases hcl with h | h | ⟨s, k, hs, hk⟩
  · subst h
    refine ⟨"", congrArg Except.ok
      (fetchTool_success_none w a u st rs bodyFull hu hne hsch hresp),
      Or.inr rfl, ?_, ?_⟩
    · intro habs
      exact absurd habs (by decide)
    · rintro ⟨s, k, hsk, -, -, -⟩
      exact Option.noConfusion hsk
  · subst h
    refine ⟨"", congrArg Except.ok
      (fetchTool_success_empty w a u st rs bodyFull hu hne hsch hresp),
      Or.inr rfl, ?_, ?_⟩
    · intro habs
      exact absurd habs (by decide)
    · rintro ⟨s, k, hsk, hne', -, -⟩
      have : ("" : String) = s := by injection hsk
      exact absurd this.symm hne'
  · subst hs
    have hsne : s ≠ "" := by
      intro he
      rw [he, show pyInt "" = none from rfl] at hk
      exact Option.noConfusion hk
    by_cases hlt : resolved_max_bytes a < k
    · refine ⟨" (truncated)", ?_, Or.inl rfl, ?_, ?_⟩
      · rw [fetchTool_success_parsed w a u st rs s k bodyFull hu hne hsch hresp
          hsne hk, if_pos hlt]
      · intro _
        exact ⟨s, k, rfl, hsne, hk, hlt⟩
      · intro _
        rfl
    · refine ⟨"", ?_, Or.inr rfl, ?_, ?_⟩
      · rw [fetchTool_success_parsed w a u st rs s k bodyFull hu hne hsch hresp
          hsne hk, if_neg hlt]
      · intro habs
        exact absurd habs (by decide)
      · rintro ⟨s', k', hsk', hne', hk', hlt'⟩
        have hss : s = s' := by injection hsk'
        subst hss
        rw [hk] at hk'
        have hkk : k = k' := by injection hk'
        subst hkk
        exact absurd hlt' hlt

/-- Witness for C4: the sample world declares Content-Length 512 while
max_bytes resolves to 256, so the note is present. -/
theorem C4_fetch_truncation_flag_witness :
    ∃ note : String,
      call_tool wA "fetch" aF =
        .ok [⟨"text", fetchResultText "http://example.com" (toString 200 ++ " " ++ "OK")
            ((List.replicate 512 97).take (resolved_max_bytes aF).toNat) note⟩] ∧
      (note = " (truncated)" ∨ note = "") ∧
      (note = " (truncated)" ↔
        ∃ s k, (some "512" : Option String) = some s ∧ s ≠ "" ∧
          pyInt s = some k ∧ resolved_max_bytes aF < k) :=
  C4_fetch_truncation_flag wA aF "http://example.com" 200 "OK" (some "512")
    (List.replicate 512 97) rfl (by decide) (by decide) rfl
    (Or.inr (Or.inr ⟨"512", 512, rfl, by decide⟩))

/-- C10: when the network request itself succeeds but the Content-Length
header is a non-empty string that is not a decimal integer, the int call
raises a ValueError that the catch-all clause converts to the single text
Fetch error with the Python message, and the body already read is
discarded: the result contains no URL, Status or Bytes lines and no body. -/
theorem C10_fetch_bad_content_length (w : World) (a : Arguments) (u : String)
    (st : Nat) (rs : String) (s : String) (bodyFull : List Nat)
    (hu : a.url.getD "" = u) (hne : u ≠ "")
    (hsch : pyStartswith u "http://" ∨ pyStartswith u "https://")
    (hresp : w.fetchResponse u = .success st rs (some s) bodyFull)
    (hs : s ≠ "") (hpy : pyInt s = none) :
    call_tool w "fetch" a =
      .ok [⟨"text", "Fetch error: " ++ pyIntErrorMsg s⟩] := by
  rw [call_tool_fetch,
    fetchTool_success_badheader w a u st rs s bodyFull hu hne hsch hresp hs hpy]

/-- Witness for C10: a response whose Content-Length header is abc. -/
theorem C10_fetch_bad_content_length_witness :
    call_tool wB "fetch" aG =
      .ok [⟨"text", "Fetch error: " ++ pyIntErrorMsg "abc"⟩] :=
  C10_fetch_bad_content_length wB aG "http://example.com" 200 "OK" "abc"
    [104, 105] rfl (by decide) (by decide) rfl (by decide) (by decide)

/-- Witness for C7: the empty argument mapping in the sample world. -/
theorem C7_timeserver_local_three_lines_witness :
    call_tool wA "timeserver" {} =
      .ok [⟨"text", timeLine1 wA.nowNaive "Local" ++ "\n" ++
          timeLine2 wA.nowUtc ++ "\n" ++ timeLine3 wA.nowNaive⟩] ∧
    '\n' ∉ (timeLine1 wA.nowNaive "Local").data ∧
    '\n' ∉ (timeLine2 wA.nowUtc).data ∧
    '\n' ∉ (timeLine3 wA.nowNaive).data :=
  C7_timeserver_local_three_lines wA {} rfl (by decide) (by decide)

end MCPServer
